import Mathlib

/-!
Shallow embedding of the fx-insight-bot signal-generation and risk-gated
order-execution pipeline (backend/src/services), together with theorems
settling the spec claims about it.

Numeric model: Python floats are modelled as exact rationals.  The one place
where IEEE-754 semantics is observable on the inputs the claims speak about is
the RSI quotient `avg_gain / avg_loss` (pandas produces NaN for 0/0 and +inf
for positive/0); that is modelled explicitly by the `FVal` type below.  All
arithmetic feeding that quotient (differences, sums and means of equal values)
is exact in IEEE-754 as well, so the rational model is faithful there.
-/

namespace FxBot

/-- Value of a float expression that may be NaN or +infinity.
`q x` is an ordinary (finite) value. -/
inductive FVal where
  | q (x : ℚ)
  | nan
  | inf
deriving DecidableEq

/-- Python `v >= c` on a float that may be NaN: NaN compares false. -/
def fGeBool (v : FVal) (c : ℚ) : Bool :=
  match v with
  | .q x => decide (c ≤ x)
  | .inf => true
  | .nan => false

/-- Python `v <= c` on a float that may be NaN: NaN compares false. -/
def fLeBool (v : FVal) (c : ℚ) : Bool :=
  match v with
  | .q x => decide (x ≤ c)
  | .inf => false
  | .nan => false

/-- The last `n` entries of a list (the trailing rolling window at the final
index, as in `Series.rolling(window=n).mean().iloc[-1]`). -/
def lastN (n : ℕ) (l : List ℚ) : List ℚ := l.drop (l.length - n)

/-- Mean over the trailing window of width `n`.  In the source this is
`df["close"].rolling(window=n).mean().iloc[-1]`; the callers guarantee
`l.length ≥ 50 ≥ n`, so the window is full and the mean is defined. -/
def meanLast (n : ℕ) (l : List ℚ) : ℚ := (lastN n l).sum / n

/-- Close-to-close differences, `df["close"].diff()` without its leading NaN:
entry `i` is `close[i+1] - close[i]`. -/
def deltas (closes : List ℚ) : List ℚ :=
  List.zipWith (fun a b => a - b) closes.tail closes

/-- `delta.where(delta > 0, 0)`: the positive part of each delta.  The leading
NaN of `diff()` satisfies `NaN > 0 = False`, hence becomes `0`, which is the
`0 ::` below (keeping the series aligned with `closes`). -/
def gains (closes : List ℚ) : List ℚ :=
  0 :: (deltas closes).map (fun d => if 0 < d then d else 0)

/-- `-delta.where(delta < 0, 0)`: the magnitude of each negative delta; the
leading NaN becomes `-0 = 0`. -/
def losses (closes : List ℚ) : List ℚ :=
  0 :: (deltas closes).map (fun d => if d < 0 then -d else 0)

/-- IEEE-754 semantics of the quotient `avg_gain / avg_loss` for the
nonnegative operands produced by `gains`/`losses`: `0/0 = NaN`,
`positive/0 = +inf`, otherwise the exact quotient. -/
def rsDiv (g l : ℚ) : FVal :=
  if l = 0 then (if g = 0 then .nan else .inf) else .q (g / l)

/-- `rsi = 100 - (100 / (1 + rs))` propagated through NaN/inf:
`rs = NaN` gives NaN, `rs = +inf` gives exactly 100.  (In the finite case the
callers only produce `rs ≥ 0`, so `1 + rs > 0` and the quotient is finite.) -/
def rsiOfRs : FVal → FVal
  | .nan => .nan
  | .inf => .q 100
  | .q x => .q (100 - 100 / (1 + x))

/-- Result dictionary of `TechnicalAnalyzer._calculate_rsi`. -/
structure RsiData where
  rsi : FVal
  overbought : Bool
  oversold : Bool
deriving DecidableEq

/-- `TechnicalAnalyzer._calculate_rsi` (period 14): rolling means of the
positive and negative parts of the close-to-close deltas, then
`rsi = 100 - 100/(1+rs)`; `overbought` iff `rsi >= 70`, `oversold` iff
`rsi <= 30` (both false when `rsi` is NaN). -/
def calculateRsi (closes : List ℚ) : RsiData :=
  let avgGain := meanLast 14 (gains closes)
  let avgLoss := meanLast 14 (losses closes)
  let rsi := rsiOfRs (rsDiv avgGain avgLoss)
  { rsi := rsi, overbought := fGeBool rsi 70, oversold := fLeBool rsi 30 }

/-- Result dictionary of `TechnicalAnalyzer._calculate_ma`.
(The source additionally rounds the reported `ma20`/`ma50` to 3 decimals for
display; `ma20_above_ma50` is computed on the unrounded values, which is what
the embedded fields hold.) -/
structure MaData where
  ma20 : ℚ
  ma50 : ℚ
  ma20aboveMa50 : Bool
deriving DecidableEq

/-- `TechnicalAnalyzer._calculate_ma`: trailing simple moving averages of the
close over 20 and 50 bars; `ma20_above_ma50 = ma20 > ma50` (strict). -/
def calculateMa (closes : List ℚ) : MaData :=
  let m20 := meanLast 20 closes
  let m50 := meanLast 50 closes
  { ma20 := m20, ma50 := m50, ma20aboveMa50 := decide (m50 < m20) }

/-- Trend classification. -/
inductive Trend where
  | up
  | down
deriving DecidableEq

/-- `TechnicalAnalyzer._determine_trend`: `up` iff `ma20_above_ma50`. -/
def determineTrend (ma : MaData) : Trend :=
  if ma.ma20aboveMa50 then .up else .down

/-- The MA/RSI/trend part of `TechnicalAnalyzer.get_indicators`, including its
`InsufficientData` guard (`len(klines) < 50` or empty).  The MACD/momentum
computation of the source is not referenced by any claim and is not embedded
here. -/
structure IndicatorCore where
  ma : MaData
  rsiData : RsiData
  trend : Trend
deriving DecidableEq

/-- Insufficient-data failure of `get_indicators`. -/
inductive IndicatorErr where
  | insufficientData
deriving DecidableEq

/-- `TechnicalAnalyzer.get_indicators` restricted to the MA/RSI/trend fields:
raises `InsufficientDataError` when the series is empty or shorter than 50
bars, otherwise computes `_calculate_ma`, `_calculate_rsi` and
`_determine_trend` on the close series. -/
def getIndicatorCore (closes : List ℚ) : Except IndicatorErr IndicatorCore :=
  if closes.length < 50 then .error .insufficientData
  else
    let ma := calculateMa closes
    .ok { ma := ma, rsiData := calculateRsi closes, trend := determineTrend ma }

/-! ## RuleEngine (`rule_engine.py`) -/

/-- Momentum classification produced by `_determine_momentum`. -/
inductive Momentum where
  | bullish
  | bearish
  | neutral
deriving DecidableEq

/-- The fields of the `technical` dictionary that `_integrate_signals` reads:
`trend`, `momentum` and the `rsi` sub-dictionary (whose `rsi` value is only
interpolated into reason strings). -/
structure Technical where
  trend : Trend
  momentum : Momentum
  rsiData : RsiData
deriving DecidableEq

/-- The news summary built by `RuleEngine._summarize_news` and consumed by
`_integrate_signals` (fields `count`, `avg_sentiment`, `avg_impact`,
`bullish_count`, `bearish_count`; the two counts are bound but unused in the
integration code). -/
structure NewsSummary where
  count : ℕ
  avgSentiment : ℚ
  avgImpact : ℚ
  bullishCount : ℕ
  bearishCount : ℕ
deriving DecidableEq

/-- Trade signal emitted by the rule engine. -/
inductive TradeSignal where
  | buy
  | sell
  | hold
deriving DecidableEq

/-- The `buy_score` accumulation of `RuleEngine._integrate_signals`:
+3 for up-trend with bullish momentum (else +1 for up-trend alone), +2 for
RSI oversold, and for a non-empty news window +3 when
`avg_sentiment > 0.5 and avg_impact >= 3` (else +1 when `avg_sentiment > 0`). -/
def buyScore (t : Technical) (n : NewsSummary) : ℕ :=
  (if t.trend = .up ∧ t.momentum = .bullish then 3
   else if t.trend = .up then 1 else 0)
  + (if t.rsiData.oversold then 2 else 0)
  + (if 0 < n.count then
      (if 1/2 < n.avgSentiment ∧ 3 ≤ n.avgImpact then 3
       else if 0 < n.avgSentiment then 1 else 0)
     else 0)

/-- The symmetric `sell_score` accumulation of `_integrate_signals`:
+3 for down-trend with bearish momentum (else +1 for down-trend alone), +2 for
RSI overbought, +3 when `avg_sentiment < -0.5 and avg_impact >= 3`
(else +1 when `avg_sentiment < 0`). -/
def sellScore (t : Technical) (n : NewsSummary) : ℕ :=
  (if t.trend = .down ∧ t.momentum = .bearish then 3
   else if t.trend = .down then 1 else 0)
  + (if t.rsiData.overbought then 2 else 0)
  + (if 0 < n.count then
      (if n.avgSentiment < -(1/2) ∧ 3 ≤ n.avgImpact then 3
       else if n.avgSentiment < 0 then 1 else 0)
     else 0)

/-- The final if/elif/else decision of `_integrate_signals`:
buy when `buy_score >= 4 and sell_score <= 1`, sell when
`sell_score >= 4 and buy_score <= 1`, otherwise hold. -/
def decideSignal (b s : ℕ) : TradeSignal :=
  if 4 ≤ b ∧ s ≤ 1 then .buy
  else if 4 ≤ s ∧ b ≤ 1 then .sell
  else .hold

/-- The confidence assigned alongside the decision:
`min(0.3 + winning_score*0.15, 1.0)` for buy/sell, a fixed `0.5` for hold. -/
def confidenceOf (b s : ℕ) : ℚ :=
  match decideSignal b s with
  | .buy => min (3/10 + b * (3/20)) 1
  | .sell => min (3/10 + s * (3/20)) 1
  | .hold => 1/2

/-- `RuleEngine._integrate_signals` (signal and confidence components; the
human-readable reason string is not embedded). -/
def integrateSignals (t : Technical) (n : NewsSummary) : TradeSignal × ℚ :=
  let b := buyScore t n
  let s := sellScore t n
  (decideSignal b s, confidenceOf b s)

/-! ## RiskManager (`risk_manager.py`)

Dates are modelled as day indices (`ℕ`); `datetime.now().date()` becomes an
explicit `today` argument threaded into the calls that consult the clock. -/

/-- `RiskConfig` dataclass (pip fields omitted: no claim touches them). -/
structure RiskConfig where
  maxDailyLoss : ℚ
  maxDailyTrades : ℕ
  maxConsecutiveLosses : ℕ
  minMarginRatio : ℚ
deriving DecidableEq

/-- The mutable counters of `RiskManager`
(`_daily_loss`, `_daily_trades`, `_consecutive_losses`, `_last_reset_date`;
the reset date is `none` at construction). -/
structure RiskState where
  dailyLoss : ℚ
  dailyTrades : ℕ
  consecutiveLosses : ℕ
  lastResetDate : Option ℕ
deriving DecidableEq

/-- Risk level literal. -/
inductive RiskLevel where
  | LOW
  | MEDIUM
  | HIGH
  | CRITICAL
deriving DecidableEq

/-- Which branch of the risk check produced the result; each constructor
stands for the distinct reason string built in that branch of
`check_trade_allowed` / `_check_margin_ratio`. -/
inductive CheckReason where
  | consecutiveLossLimit
  | dailyLossLimit
  | dailyTradeLimit
  | marginTooLow
  | marginOK
  | marginSkipped
  | tradeAllowed
deriving DecidableEq

/-- `RiskCheckResult` (the `details` dictionary is not embedded). -/
structure RiskCheckResult where
  canTrade : Bool
  reason : CheckReason
  riskLevel : RiskLevel
deriving DecidableEq

/-- `RiskManager._reset_daily_stats_if_needed`: when `_last_reset_date` is
`None` or differs from today, zero `_daily_loss` and `_daily_trades` and stamp
today; `_consecutive_losses` is untouched. -/
def resetDailyStatsIfNeeded (today : ℕ) (s : RiskState) : RiskState :=
  if s.lastResetDate ≠ some today then
    { dailyLoss := 0, dailyTrades := 0,
      consecutiveLosses := s.consecutiveLosses, lastResetDate := some today }
  else s

/-- `RiskManager._calculate_risk_level`: the largest of the loss, trade-count
and loss-streak ratios (each taken as 0 when its configured maximum is not
positive), mapped to HIGH at ≥ 0.8, MEDIUM at ≥ 0.5, LOW below. -/
def calculateRiskLevel (cfg : RiskConfig) (s : RiskState) : RiskLevel :=
  let lossRatio := if 0 < cfg.maxDailyLoss then s.dailyLoss / cfg.maxDailyLoss else 0
  let tradeRatio := if 0 < cfg.maxDailyTrades then
    (s.dailyTrades : ℚ) / (cfg.maxDailyTrades : ℚ) else 0
  let streakRatio := if 0 < cfg.maxConsecutiveLosses then
    (s.consecutiveLosses : ℚ) / (cfg.maxConsecutiveLosses : ℚ) else 0
  let maxRatio := max lossRatio (max tradeRatio streakRatio)
  if 4/5 ≤ maxRatio then .HIGH
  else if 1/2 ≤ maxRatio then .MEDIUM
  else .LOW

/-- A dictionary value that `float(...)` either converts to a number or
rejects (raising `ValueError`, e.g. a non-numeric string). -/
inductive JVal where
  | num (x : ℚ)
  | badStr
deriving DecidableEq

/-- `float(account_assets.get(key, 0))`: an absent key defaults to `0`;
a non-convertible value raises, modelled as `none`. -/
def toFloatOrRaise : Option JVal → Option ℚ
  | none => some 0
  | some (.num x) => some x
  | some .badStr => none

/-- The `balance` and `margin` entries of the account-assets dictionary. -/
structure AccountAssets where
  balance : Option JVal
  margin : Option JVal
deriving DecidableEq

/-- `RiskManager._check_margin_ratio`: converts `balance` and `margin` to
floats, takes the ratio as 100% when `margin == 0` and `balance/margin*100`
otherwise, and rejects with CRITICAL when it is below `min_margin_ratio`.
Any exception in the body (here: a failing float conversion) is caught and
turned into a fail-open `can_trade=True` result with MEDIUM level. -/
def checkMarginRatio (cfg : RiskConfig) (a : AccountAssets) : RiskCheckResult :=
  match toFloatOrRaise a.balance, toFloatOrRaise a.margin with
  | some b, some m =>
    let ratio := if m = 0 then 100 else b / m * 100
    if ratio < cfg.minMarginRatio then
      { canTrade := false, reason := .marginTooLow, riskLevel := .CRITICAL }
    else
      { canTrade := true, reason := .marginOK, riskLevel := .LOW }
  | _, _ =>
    { canTrade := true, reason := .marginSkipped, riskLevel := .MEDIUM }

/-- `RiskManager.check_trade_allowed`: applies the lazy daily rollover, then
checks in order (1) consecutive losses (CRITICAL), (2) daily loss (CRITICAL),
(3) daily trade count (HIGH), (4) margin ratio when account assets are
supplied, short-circuiting at the first failing check; otherwise allows with
the level from `_calculate_risk_level`.  Returns the result together with the
post-rollover state (the call mutates only via the rollover).  An absent or
empty (falsy) assets dictionary is modelled as `none`. -/
def checkTradeAllowed (today : ℕ) (cfg : RiskConfig) (s : RiskState)
    (assets : Option AccountAssets) : RiskCheckResult × RiskState :=
  let s := resetDailyStatsIfNeeded today s
  let res :=
    if cfg.maxConsecutiveLosses ≤ s.consecutiveLosses then
      { canTrade := false, reason := .consecutiveLossLimit,
        riskLevel := .CRITICAL : RiskCheckResult }
    else if cfg.maxDailyLoss ≤ s.dailyLoss then
      { canTrade := false, reason := .dailyLossLimit, riskLevel := .CRITICAL }
    else if cfg.maxDailyTrades ≤ s.dailyTrades then
      { canTrade := false, reason := .dailyTradeLimit, riskLevel := .HIGH }
    else
      match assets with
      | some a =>
        let mc := checkMarginRatio cfg a
        if mc.canTrade then
          { canTrade := true, reason := .tradeAllowed,
            riskLevel := calculateRiskLevel cfg s }
        else mc
      | none =>
        { canTrade := true, reason := .tradeAllowed,
          riskLevel := calculateRiskLevel cfg s }
  (res, s)

/-- `RiskManager.record_trade_result`: increments `_daily_trades`
unconditionally; on a negative profit/loss adds its magnitude to
`_daily_loss` and increments `_consecutive_losses`, otherwise resets the
streak to 0.  The `success` argument is accepted and ignored, as in the
source. -/
def recordTradeResult (profitLoss : ℚ) (_success : Bool) (s : RiskState) :
    RiskState :=
  { s with
    dailyTrades := s.dailyTrades + 1,
    dailyLoss := if profitLoss < 0 then s.dailyLoss + |profitLoss| else s.dailyLoss,
    consecutiveLosses := if profitLoss < 0 then s.consecutiveLosses + 1 else 0 }

/-! ## GMOCoinClient (`gmo_client.py`): the `_request` retry loop

The network is modelled as a function from the attempt number (1-based, as in
`for attempt in range(1, max_retries + 1)`) to what that attempt observes.
The embedding returns the outcome of the loop together with the list of
back-off sleeps performed (in seconds), so retry counts and back-off shapes
are both observable. -/

/-- What one HTTP attempt in `_request` observes. -/
inductive AttemptOutcome where
  | http429
  | http401
  | netError
  | appError
  | success
deriving DecidableEq

/-- The exception class escaping `_request`. -/
inductive ReqError where
  | rateLimit
  | auth
  | apiError
deriving DecidableEq

/-- One pass through the body of the `for attempt` loop of
`GMOCoinClient._request`, faithful to the ordered `except` clauses:

* missing private credentials raise `AuthenticationError` before the call;
* HTTP 429 raises `RateLimitError` and HTTP 401 raises
  `AuthenticationError`; both are caught by the first clause
  `except (RateLimitError, AuthenticationError): raise` and re-raised
  immediately — the later `except RateLimitError` clause with exponential
  back-off is unreachable;
* a `requests` exception is retried with linear back-off
  `retry_delay * attempt` while `attempt < max_retries`, then escalated to
  `APIError`;
* a non-zero application `status` raises `APIError`, re-raised as-is.

The recursion consumes `fuel`, the number of loop iterations remaining;
when it hits 0 the loop has ended and the trailing
`raise APIError("Max retries exceeded")` fires. -/
def requestFrom (maxRetries : ℕ) (retryDelay : ℚ) (credsOk priv : Bool)
    (outcomes : ℕ → AttemptOutcome) :
    ℕ → ℕ → Except ReqError Unit × List ℚ
  | _, 0 => (.error .apiError, [])
  | attempt, fuel + 1 =>
    if priv ∧ ¬credsOk then (.error .auth, [])
    else
      match outcomes attempt with
      | .http429 => (.error .rateLimit, [])
      | .http401 => (.error .auth, [])
      | .appError => (.error .apiError, [])
      | .success => (.ok (), [])
      | .netError =>
        if attempt < maxRetries then
          let rest := requestFrom maxRetries retryDelay credsOk priv outcomes
            (attempt + 1) fuel
          (rest.1, retryDelay * attempt :: rest.2)
        else (.error .apiError, [])

/-- `GMOCoinClient._request`: run the attempt loop from attempt 1 with
`max_retries` iterations available. -/
def request (maxRetries : ℕ) (retryDelay : ℚ) (credsOk priv : Bool)
    (outcomes : ℕ → AttemptOutcome) : Except ReqError Unit × List ℚ :=
  requestFrom maxRetries retryDelay credsOk priv outcomes 1 maxRetries

/-! ## GMOCoinClient: dry-run IFDOCO simulation -/

/-- Order side. -/
inductive Side where
  | BUY
  | SELL
deriving DecidableEq

/-- `second_side = "SELL" if first_side == "BUY" else "BUY"`. -/
def inverseSide : Side → Side
  | .BUY => .SELL
  | .SELL => .BUY

/-- One order record returned by `_simulate_ifdoco_order` (`timestamp` and the
optional `clientOrderId` are omitted; the `_dry_run` marker is the
`dryRunFlag` field). -/
structure SimOrder where
  rootOrderId : String
  orderId : String
  symbol : String
  orderType : String
  side : Side
  executionType : String
  settleType : String
  size : String
  price : String
  status : String
  dryRunFlag : Bool
deriving DecidableEq

/-- `GMOCoinClient._simulate_ifdoco_order`: three records — entry (OPEN),
take-profit (LIMIT, CLOSE) and stop-loss (STOP, CLOSE) — sharing one root id
`"DRY_" ++ raw0`; each own id is `"DRY_" ++ rawi` for a fresh uuid fragment
`rawi`, and both exit orders take the side inverse to the entry side.
The four uuid fragments are passed in explicitly (`uuid4().hex[:8].upper()`
in the source). -/
def simulateIfdocoOrder (raw0 raw1 raw2 raw3 : String) (symbol : String)
    (firstSide : Side) (firstExecutionType : String) (firstSize : ℕ)
    (firstPrice : String) (secondSize : ℕ)
    (secondLimitPrice secondStopPrice : String) : List SimOrder :=
  let rootId := "DRY_" ++ raw0
  let secondSide := inverseSide firstSide
  [ { rootOrderId := rootId, orderId := "DRY_" ++ raw1, symbol := symbol,
      orderType := "IFDOCO", side := firstSide,
      executionType := firstExecutionType, settleType := "OPEN",
      size := toString firstSize, price := firstPrice, status := "WAITING",
      dryRunFlag := true },
    { rootOrderId := rootId, orderId := "DRY_" ++ raw2, symbol := symbol,
      orderType := "IFDOCO", side := secondSide, executionType := "LIMIT",
      settleType := "CLOSE", size := toString secondSize,
      price := secondLimitPrice, status := "WAITING", dryRunFlag := true },
    { rootOrderId := rootId, orderId := "DRY_" ++ raw3, symbol := symbol,
      orderType := "IFDOCO", side := secondSide, executionType := "STOP",
      settleType := "CLOSE", size := toString secondSize,
      price := secondStopPrice, status := "WAITING", dryRunFlag := true } ]

/-- Observable effect of `place_ifdoco_order`: either a locally synthesized
response (dry-run) or an HTTP POST to the private `ifoOrder` endpoint. -/
inductive GatewayOutcome where
  | simulated (orders : List SimOrder)
  | networkPost (path : String)
deriving DecidableEq

/-- `GMOCoinClient.place_ifdoco_order`: in dry-run it returns the simulated
order list without touching the network; otherwise it issues the private
POST (whose body and response handling are irrelevant to the claims and
abstracted to the endpoint path). -/
def placeIfdocoOrder (dryRun : Bool) (raw0 raw1 raw2 raw3 : String)
    (symbol : String) (firstSide : Side) (firstExecutionType : String)
    (firstSize : ℕ) (firstPrice : String) (secondSize : ℕ)
    (secondLimitPrice secondStopPrice : String) : GatewayOutcome :=
  if dryRun then
    .simulated (simulateIfdocoOrder raw0 raw1 raw2 raw3 symbol firstSide
      firstExecutionType firstSize firstPrice secondSize
      secondLimitPrice secondStopPrice)
  else
    .networkPost "/v1/ifoOrder"

/-! ## TradeExecutor (`trade_executor.py`) -/

/-- `TradeResult.action` literal. -/
inductive Action where
  | BUY
  | SELL
  | HOLD
  | CLOSE
  | SKIP
deriving DecidableEq

/-- `TradeResult` dataclass (`order_id`, `reason`, `dry_run` kept;
`timestamp` — wall clock — omitted). -/
structure TradeResult where
  success : Bool
  action : Action
  symbol : String
  size : ℕ
  orderId : Option String
  reason : String
  dryRun : Bool
deriving DecidableEq

/-- The failed result synthesized by the `except` handler at the symbol
boundary of `execute_signals`. -/
def errorResult (symbol : String) (dryRun : Bool) (e : String) : TradeResult :=
  { success := false, action := .SKIP, symbol := symbol, size := 0,
    orderId := none, reason := "Error: " ++ e, dryRun := dryRun }

/-- `TradeExecutor.execute_signals`: iterate over the configured symbols in
order; each symbol's `execute_signal_for_symbol` call (modelled by the oracle
`execOne`, whose `.error` case is a raised exception) is wrapped in a
`try/except` that converts a failure into `errorResult` and moves on to the
next symbol.  (The Firestore save inside the `try` swallows its own
exceptions in the source and cannot throw.) -/
def executeSignals (symbols : List String) (dryRun : Bool)
    (execOne : String → Except String TradeResult) : List TradeResult :=
  symbols.map fun sym =>
    match execOne sym with
    | .ok r => r
    | .error e => errorResult sym dryRun e

/-- Exception classes caught inside `_execute_buy` / `_execute_sell` around
the order placement (`AuthenticationError`, `OrderError`); any other
exception propagates to the `execute_signals` handler and is covered by the
`execOne` oracle above. -/
inductive OrderExc where
  | authError
  | orderError
deriving DecidableEq

/-- Successful order-placement response fields read by `_execute_buy`. -/
structure OrderResponse where
  orderId : Option String
  dryRunMarker : Bool
deriving DecidableEq

/-- `TradeExecutor._execute_buy`: if the position-count check refuses, return
a successful SKIP result with its reason; otherwise place the order and
return a successful BUY result, or — when placement raises
`AuthenticationError`/`OrderError` — a failed BUY result.  The position check
and the placement call are modelled as oracles (`canOpen`, `placeOrder`). -/
def executeBuy (symbol : String) (defaultSize : ℕ) (clientDryRun : Bool)
    (canOpen : Bool × String) (placeOrder : Except OrderExc OrderResponse)
    (signalReason : String) : TradeResult :=
  if !canOpen.1 then
    { success := true, action := .SKIP, symbol := symbol, size := 0,
      orderId := none, reason := canOpen.2, dryRun := clientDryRun }
  else
    match placeOrder with
    | .ok o =>
      { success := true, action := .BUY, symbol := symbol,
        size := defaultSize, orderId := o.orderId, reason := signalReason,
        dryRun := o.dryRunMarker }
    | .error _ =>
      { success := false, action := .BUY, symbol := symbol,
        size := defaultSize, orderId := none, reason := "Order failed",
        dryRun := clientDryRun }

/-! ## Helper lemmas: indicator computations on constant close series -/

theorem zipWith_replicate_left (f : ℚ → ℚ → ℚ) (a b : ℚ) :
    ∀ m, List.zipWith f (List.replicate m a) (List.replicate (m + 1) b) =
      List.replicate m (f a b) := by
  intro m
  induction m with
  | zero => rfl
  | succ k ih =>
    simp only [List.replicate_succ, List.zipWith_cons_cons]
    rw [← List.replicate_succ b k, ih]

theorem deltas_replicate (m : ℕ) (c : ℚ) :
    deltas (List.replicate m c) = List.replicate (m - 1) 0 := by
  cases m with
  | zero => rfl
  | succ k =>
    have ht : (List.replicate (k + 1) c).tail = List.replicate k c := by
      simp [List.replicate_succ]
    simp only [deltas, ht, zipWith_replicate_left, sub_self, Nat.add_sub_cancel]

theorem gains_replicate (m : ℕ) (c : ℚ) (hm : 1 ≤ m) :
    gains (List.replicate m c) = List.replicate m 0 := by
  cases m with
  | zero => omega
  | succ k =>
    simp only [gains, deltas_replicate, List.map_replicate, if_neg (lt_irrefl (0 : ℚ)),
      Nat.add_sub_cancel]
    rw [← List.replicate_succ]

theorem losses_replicate (m : ℕ) (c : ℚ) (hm : 1 ≤ m) :
    losses (List.replicate m c) = List.replicate m 0 := by
  cases m with
  | zero => omega
  | succ k =>
    simp only [losses, deltas_replicate, List.map_replicate, if_neg (lt_irrefl (0 : ℚ)),
      Nat.add_sub_cancel]
    rw [← List.replicate_succ]

theorem lastN_replicate (n m : ℕ) (c : ℚ) (h : n ≤ m) :
    lastN n (List.replicate m c) = List.replicate n c := by
  simp only [lastN, List.length_replicate, List.drop_replicate]
  congr 1
  omega

theorem meanLast_replicate (n m : ℕ) (c : ℚ) (h0 : 0 < n) (h : n ≤ m) :
    meanLast n (List.replicate m c) = c := by
  have hn : ((n : ℚ)) ≠ 0 := by
    exact_mod_cast Nat.pos_iff_ne_zero.mp h0
  simp only [meanLast, lastN_replicate n m c h, List.sum_replicate, nsmul_eq_mul]
  field_simp

theorem meanLast_replicate_zero (n m : ℕ) : meanLast n (List.replicate m (0 : ℚ)) = 0 := by
  simp only [meanLast, lastN, List.length_replicate, List.drop_replicate,
    List.sum_replicate, smul_zero, zero_div]

theorem calculateRsi_replicate (m : ℕ) (c : ℚ) (hm : 1 ≤ m) :
    calculateRsi (List.replicate m c) =
      { rsi := .nan, overbought := false, oversold := false } := by
  simp only [calculateRsi, gains_replicate m c hm, losses_replicate m c hm,
    meanLast_replicate_zero]
  rfl

theorem calculateMa_replicate (m : ℕ) (c : ℚ) (hm : 50 ≤ m) :
    calculateMa (List.replicate m c) =
      { ma20 := c, ma50 := c, ma20aboveMa50 := false } := by
  simp only [calculateMa,
    meanLast_replicate 20 m c (by norm_num) (by omega),
    meanLast_replicate 50 m c (by norm_num) hm,
    decide_eq_false (lt_irrefl c)]

/-- C1: on a constant close series of length ≥ 50, `_calculate_rsi` computes
`avg_gain = avg_loss = 0`, so `rs = 0/0` is NaN and the reported RSI is NaN
(with `overbought` and `oversold` both false), NOT the special-cased 100 the
claim asks for; the MA part does give `ma20 = ma50` and hence `trend = down`
under the strict-greater rule.  This is the amended statement. -/
theorem c1_constant_series_rsi_nan_trend_down (m : ℕ) (c : ℚ) (hm : 50 ≤ m) :
    getIndicatorCore (List.replicate m c) =
      .ok { ma := { ma20 := c, ma50 := c, ma20aboveMa50 := false },
            rsiData := { rsi := .nan, overbought := false, oversold := false },
            trend := .down } := by
  have hlen : ¬ (List.replicate m c).length < 50 := by
    simp only [List.length_replicate]; omega
  simp only [getIndicatorCore, if_neg hlen,
    calculateMa_replicate m c hm, calculateRsi_replicate m c (by omega),
    determineTrend, Bool.false_eq_true, if_false]

/-- C1 witness: the amended theorem instantiated on the concrete constant
series of 50 bars at close 100. -/
theorem c1_constant_series_witness :
    getIndicatorCore (List.replicate 50 (100 : ℚ)) =
      .ok { ma := { ma20 := 100, ma50 := 100, ma20aboveMa50 := false },
            rsiData := { rsi := .nan, overbought := false, oversold := false },
            trend := .down } :=
  c1_constant_series_rsi_nan_trend_down 50 100 (by norm_num)

/-- C1 counterexample: on the concrete constant series of 50 bars at close
100, the computed RSI is NaN and in particular is not 100, refuting the
claimed `RSI = 100` (the trend half of the claim does hold: trend is down). -/
theorem c1_counterexample :
    (calculateRsi (List.replicate 50 (100 : ℚ))).rsi = FVal.nan ∧
    (calculateRsi (List.replicate 50 (100 : ℚ))).rsi ≠ FVal.q 100 ∧
    determineTrend (calculateMa (List.replicate 50 (100 : ℚ))) = Trend.down := by
  have h := calculateRsi_replicate 50 (100 : ℚ) (by norm_num)
  have hma := calculateMa_replicate 50 (100 : ℚ) (by norm_num)
  rw [h, hma]
  exact ⟨rfl, fun hc => FVal.noConfusion hc, rfl⟩

/-- C2: behaviour of the `_request` loop at `max_retries = 3`,
`retry_delay = 1`.  An authentication fault (HTTP 401, or missing private
credentials) is raised immediately with no back-off sleep — as the claim
says.  A transient network fault is retried with linear back-off (sleeps
`[1, 2]`) up to the attempt limit and then escalated to `APIError` — as the
claim says.  But a rate-limit fault (HTTP 429) is ALSO raised immediately,
with no retry and no back-off sleep: the clause
`except (RateLimitError, AuthenticationError): raise` catches it first, so
the exponential-back-off `except RateLimitError` handler below it is
unreachable.  This contradicts the claim (and the intent evidenced by that
dead handler), hence the evaluation: the 429 run performs zero sleeps and
escapes as `RateLimitError` on attempt 1. -/
theorem c2_rate_limit_never_retried :
    request 3 1 true true (fun _ => .http429) = (.error .rateLimit, []) ∧
    request 3 1 false true (fun _ => .success) = (.error .auth, []) ∧
    request 3 1 true true (fun _ => .http401) = (.error .auth, []) ∧
    request 3 1 true true (fun _ => .netError) = (.error .apiError, [1, 2]) ∧
    request 3 1 true true
      (fun n => if n < 3 then .netError else .success) = (.ok (), [1, 2]) := by
  refine ⟨?_, ?_, ?_, ?_, ?_⟩ <;> simp [request, requestFrom]

/-- C4: the fused decision is `buy` iff `buy_score ≥ 4 ∧ sell_score ≤ 1`,
`sell` iff `sell_score ≥ 4 ∧ buy_score ≤ 1`, and `hold` otherwise, for every
pair of scores; `integrateSignals` decides via exactly this function on the
accumulated scores; and at the claimed boundary points, scores (3,0) and
(4,2) both resolve to `hold`. -/
theorem c4_signal_decision_thresholds :
    (∀ (t : Technical) (n : NewsSummary),
      (integrateSignals t n).1 = decideSignal (buyScore t n) (sellScore t n)) ∧
    (∀ b s : ℕ,
      (decideSignal b s = .buy ↔ 4 ≤ b ∧ s ≤ 1) ∧
      (decideSignal b s = .sell ↔ 4 ≤ s ∧ b ≤ 1) ∧
      (decideSignal b s = .hold ↔ ¬(4 ≤ b ∧ s ≤ 1) ∧ ¬(4 ≤ s ∧ b ≤ 1))) ∧
    decideSignal 3 0 = .hold ∧ decideSignal 4 2 = .hold := by
  refine ⟨fun t n => rfl, fun b s => ?_, by decide, by decide⟩
  unfold decideSignal
  by_cases h1 : 4 ≤ b ∧ s ≤ 1
  · rw [if_pos h1]
    exact ⟨⟨(fun _ => h1), (fun _ => rfl)⟩,
      ⟨(fun hc => nomatch hc), (fun hc => ((by omega : False)).elim)⟩,
      ⟨(fun hc => nomatch hc), (fun hc => (hc.1 h1).elim)⟩⟩
  · rw [if_neg h1]
    by_cases h2 : 4 ≤ s ∧ b ≤ 1
    · rw [if_pos h2]
      exact ⟨⟨(fun hc => nomatch hc), (fun hb => (h1 hb).elim)⟩,
        ⟨(fun _ => h2), (fun _ => rfl)⟩,
        ⟨(fun hc => nomatch hc), (fun hc => (hc.2 h2).elim)⟩⟩
    · rw [if_neg h2]
      exact ⟨⟨(fun hc => nomatch hc), (fun hb => (h1 hb).elim)⟩,
        ⟨(fun hc => nomatch hc), (fun hs => (h2 hs).elim)⟩,
        ⟨(fun _ => ⟨h1, h2⟩), (fun _ => rfl)⟩⟩

/-- C5: the confidence attached to a generated signal is
`min(0.3 + 0.15 × winning_score, 1.0)` when the decision is buy or sell
(winning score = the score of the chosen side) and exactly `0.5` for hold;
and in the end-to-end scenario — trend up, momentum bullish, RSI neither
overbought nor oversold, news summary with count 2, avg_sentiment 1.0 and
avg_impact 4 — the fused result is `buy` with confidence exactly 1. -/
theorem c5_confidence_formula (t : Technical) (n : NewsSummary) :
    ((integrateSignals t n).1 = .buy →
      (integrateSignals t n).2 = min ((3 : ℚ)/10 + (buyScore t n : ℚ) * (3/20)) 1) ∧
    ((integrateSignals t n).1 = .sell →
      (integrateSignals t n).2 = min ((3 : ℚ)/10 + (sellScore t n : ℚ) * (3/20)) 1) ∧
    ((integrateSignals t n).1 = .hold → (integrateSignals t n).2 = (1 : ℚ)/2) ∧
    integrateSignals
      { trend := .up, momentum := .bullish,
        rsiData := { rsi := .q 50, overbought := false, oversold := false } }
      { count := 2, avgSentiment := 1, avgImpact := 4,
        bullishCount := 2, bearishCount := 0 } = (.buy, 1) := by
  have hud : Trend.up ≠ Trend.down := fun h => nomatch h
  refine ⟨?_, ?_, ?_,
    by norm_num [integrateSignals, buyScore, sellScore, decideSignal, confidenceOf,
      hud, min_def]⟩ <;>
    · intro h
      simp only [integrateSignals] at h ⊢
      unfold confidenceOf
      rw [h]

/-- C5 witness: the buy-branch implication of `c5_confidence_formula`
discharged at the concrete end-to-end scenario input. -/
theorem c5_confidence_witness :
    (integrateSignals
      { trend := .up, momentum := .bullish,
        rsiData := { rsi := .q 50, overbought := false, oversold := false } }
      { count := 2, avgSentiment := 1, avgImpact := 4,
        bullishCount := 2, bearishCount := 0 }).2 =
    min ((3 : ℚ)/10 + ((buyScore
      { trend := .up, momentum := .bullish,
        rsiData := { rsi := .q 50, overbought := false, oversold := false } }
      { count := 2, avgSentiment := 1, avgImpact := 4,
        bullishCount := 2, bearishCount := 0 }) : ℚ) * (3/20)) 1 :=
  (c5_confidence_formula _ _).1
    (congrArg Prod.fst (c5_confidence_formula
      { trend := .up, momentum := .bullish,
        rsiData := { rsi := .q 50, overbought := false, oversold := false } }
      { count := 2, avgSentiment := 1, avgImpact := 4,
        bullishCount := 2, bearishCount := 0 }).2.2.2)

/-- C3: daily rollover.  Whenever the current date differs from
`_last_reset_date`, the first risk-affecting call zeroes `daily_loss` and
`daily_trade_count` and leaves `consecutive_losses` unchanged (first
conjunct, for an arbitrary call).  In particular, for a state whose daily
trade budget was exhausted on day N (with the loss streak below its limit
and positive configured limits), `check_trade_allowed` rejects on day N and
allows on day N+1, carrying the streak over unchanged. -/
theorem c3_daily_rollover (today dayN : ℕ) (cfg : RiskConfig)
    (s s2 : RiskState) (assets : Option AccountAssets)
    (hroll : s.lastResetDate ≠ some today)
    (hday : s2.lastResetDate = some dayN)
    (hexh : cfg.maxDailyTrades ≤ s2.dailyTrades)
    (hstreak : s2.consecutiveLosses < cfg.maxConsecutiveLosses)
    (hposL : 0 < cfg.maxDailyLoss) (hposT : 0 < cfg.maxDailyTrades) :
    ((checkTradeAllowed today cfg s assets).2.dailyLoss = 0 ∧
     (checkTradeAllowed today cfg s assets).2.dailyTrades = 0 ∧
     (checkTradeAllowed today cfg s assets).2.consecutiveLosses =
       s.consecutiveLosses) ∧
    (checkTradeAllowed dayN cfg s2 none).1.canTrade = false ∧
    (checkTradeAllowed (dayN + 1) cfg s2 none).1.canTrade = true ∧
    (checkTradeAllowed (dayN + 1) cfg s2 none).2.consecutiveLosses =
      s2.consecutiveLosses := by
  constructor
  · simp [checkTradeAllowed, resetDailyStatsIfNeeded, if_pos hroll]
  · have hsame : ¬ (s2.lastResetDate ≠ some dayN) := by simp [hday]
    have hnext : s2.lastResetDate ≠ some (dayN + 1) := by simp [hday]
    refine ⟨?_, ?_, ?_⟩
    · simp only [checkTradeAllowed, resetDailyStatsIfNeeded, if_neg hsame]
      rw [if_neg (not_le.mpr hstreak)]
      by_cases hl : cfg.maxDailyLoss ≤ s2.dailyLoss
      · rw [if_pos hl]
      · rw [if_neg hl, if_pos hexh]
    · simp only [checkTradeAllowed, resetDailyStatsIfNeeded, if_pos hnext]
      rw [if_neg (not_le.mpr hstreak), if_neg (not_le.mpr hposL),
        if_neg (not_le.mpr hposT)]
    · simp only [checkTradeAllowed, resetDailyStatsIfNeeded, if_pos hnext]

/-- C3 witness: the rollover theorem instantiated on a concrete day-5 state
(10 of 10 daily trades used, streak 1 of 3) checked again on day 6. -/
theorem c3_daily_rollover_witness :
    (checkTradeAllowed 6 ⟨50000, 10, 3, 100⟩
      ⟨0, 10, 1, some 5⟩ none).1.canTrade = true ∧
    (checkTradeAllowed 6 ⟨50000, 10, 3, 100⟩
      ⟨0, 10, 1, some 5⟩ none).2.consecutiveLosses = 1 :=
  ⟨(c3_daily_rollover 6 5 ⟨50000, 10, 3, 100⟩
      ⟨0, 10, 1, some 5⟩ ⟨0, 10, 1, some 5⟩ none
      (by simp) rfl (by norm_num) (by norm_num) (by norm_num)
      (by norm_num)).2.2.1,
   (c3_daily_rollover 6 5 ⟨50000, 10, 3, 100⟩
      ⟨0, 10, 1, some 5⟩ ⟨0, 10, 1, some 5⟩ none
      (by simp) rfl (by norm_num) (by norm_num) (by norm_num)
      (by norm_num)).2.2.2⟩

/-- Case analysis of `_check_margin_ratio`: either both fields convert and
the result is the ratio comparison, or a conversion raises and the result is
the fail-open MEDIUM skip. -/
theorem checkMarginRatio_spec (cfg : RiskConfig) (a : AccountAssets) :
    (∃ b m, toFloatOrRaise a.balance = some b ∧
      toFloatOrRaise a.margin = some m ∧
      checkMarginRatio cfg a =
        (if (if m = 0 then (100 : ℚ) else b / m * 100) < cfg.minMarginRatio
         then { canTrade := false, reason := .marginTooLow,
                riskLevel := .CRITICAL }
         else { canTrade := true, reason := .marginOK,
                riskLevel := .LOW })) ∨
    ((toFloatOrRaise a.balance = none ∨ toFloatOrRaise a.margin = none) ∧
      checkMarginRatio cfg a =
        { canTrade := true, reason := .marginSkipped,
          riskLevel := .MEDIUM }) := by
  unfold checkMarginRatio
  rcases hb : toFloatOrRaise a.balance with _ | b
  · exact Or.inr ⟨Or.inl rfl, rfl⟩
  · rcases hmm : toFloatOrRaise a.margin with _ | m
    · exact Or.inr ⟨Or.inr rfl, rfl⟩
    · exact Or.inl ⟨b, m, rfl, rfl, rfl⟩

/-- C6: evaluation order and inclusive boundaries of `check_trade_allowed`
on a state already stamped with today's date (so that the lazy rollover is
the identity).  (1) A reached consecutive-loss limit rejects CRITICAL
regardless of every other condition; (2) below it, a reached daily-loss
limit rejects CRITICAL; (3) below both, a reached trade-count limit rejects
HIGH; (4) with all counters below their limits, a failing margin check
(account assets supplied) is returned as-is, and a failing margin check is
always the CRITICAL margin rejection; finally, `daily_loss` exactly equal to
`max_daily_loss` is inclusive-boundary rejected with CRITICAL. -/
theorem c6_check_order_and_boundaries (today : ℕ) (cfg : RiskConfig)
    (s : RiskState) (assets : Option AccountAssets) (a : AccountAssets)
    (hsame : s.lastResetDate = some today) :
    (cfg.maxConsecutiveLosses ≤ s.consecutiveLosses →
      (checkTradeAllowed today cfg s assets).1 =
        { canTrade := false, reason := .consecutiveLossLimit,
          riskLevel := .CRITICAL }) ∧
    (s.consecutiveLosses < cfg.maxConsecutiveLosses →
      cfg.maxDailyLoss ≤ s.dailyLoss →
      (checkTradeAllowed today cfg s assets).1 =
        { canTrade := false, reason := .dailyLossLimit,
          riskLevel := .CRITICAL }) ∧
    (s.consecutiveLosses < cfg.maxConsecutiveLosses →
      s.dailyLoss < cfg.maxDailyLoss → cfg.maxDailyTrades ≤ s.dailyTrades →
      (checkTradeAllowed today cfg s assets).1 =
        { canTrade := false, reason := .dailyTradeLimit,
          riskLevel := .HIGH }) ∧
    (s.consecutiveLosses < cfg.maxConsecutiveLosses →
      s.dailyLoss < cfg.maxDailyLoss → s.dailyTrades < cfg.maxDailyTrades →
      (checkMarginRatio cfg a).canTrade = false →
      (checkTradeAllowed today cfg s (some a)).1 = checkMarginRatio cfg a) ∧
    ((checkMarginRatio cfg a).canTrade = false →
      checkMarginRatio cfg a =
        { canTrade := false, reason := .marginTooLow,
          riskLevel := .CRITICAL }) ∧
    (s.consecutiveLosses < cfg.maxConsecutiveLosses →
      s.dailyLoss = cfg.maxDailyLoss →
      (checkTradeAllowed today cfg s assets).1 =
        { canTrade := false, reason := .dailyLossLimit,
          riskLevel := .CRITICAL }) := by
  have hid : ¬ (s.lastResetDate ≠ some today) := by simp [hsame]
  refine ⟨?_, ?_, ?_, ?_, ?_, ?_⟩
  · intro h1
    simp only [checkTradeAllowed, resetDailyStatsIfNeeded, if_neg hid, if_pos h1]
  · intro h1 h2
    simp only [checkTradeAllowed, resetDailyStatsIfNeeded, if_neg hid]
    rw [if_neg (not_le.mpr h1), if_pos h2]
  · intro h1 h2 h3
    simp only [checkTradeAllowed, resetDailyStatsIfNeeded, if_neg hid]
    rw [if_neg (not_le.mpr h1), if_neg (not_le.mpr h2), if_pos h3]
  · intro h1 h2 h3 hm
    simp only [checkTradeAllowed, resetDailyStatsIfNeeded, if_neg hid]
    rw [if_neg (not_le.mpr h1), if_neg (not_le.mpr h2), if_neg (not_le.mpr h3)]
    simp only [hm, Bool.false_eq_true, if_false]
  · intro hm
    rcases checkMarginRatio_spec cfg a with ⟨b, m, hb, hmm, heq⟩ | ⟨_, heq⟩
    · rw [heq]
      by_cases hr : (if m = 0 then (100 : ℚ) else b / m * 100) <
        cfg.minMarginRatio
      · rw [if_pos hr]
      · rw [heq, if_neg hr] at hm
        exact Bool.noConfusion hm
    · rw [heq] at hm
      exact Bool.noConfusion hm
  · intro h1 h2
    simp only [checkTradeAllowed, resetDailyStatsIfNeeded, if_neg hid]
    rw [if_neg (not_le.mpr h1), if_pos (le_of_eq h2.symm)]

/-- C6 witness: with `max_daily_loss = 100` and `daily_loss` exactly 100
(streak below its limit), the check rejects with CRITICAL at the daily-loss
boundary; and a reached streak limit rejects with CRITICAL first. -/
theorem c6_check_order_witness :
    (checkTradeAllowed 0 ⟨100, 10, 3, 100⟩
      ⟨100, 0, 0, some 0⟩ none).1 =
      { canTrade := false, reason := .dailyLossLimit,
        riskLevel := .CRITICAL } ∧
    (checkTradeAllowed 0 ⟨100, 10, 3, 100⟩
      ⟨100, 10, 3, some 0⟩ none).1 =
      { canTrade := false, reason := .consecutiveLossLimit,
        riskLevel := .CRITICAL } :=
  ⟨(c6_check_order_and_boundaries 0 ⟨100, 10, 3, 100⟩
      ⟨100, 0, 0, some 0⟩ none ⟨none, none⟩ rfl).2.2.2.2.2
      (by norm_num) rfl,
   (c6_check_order_and_boundaries 0 ⟨100, 10, 3, 100⟩
      ⟨100, 10, 3, some 0⟩ none ⟨none, none⟩ rfl).1 (by norm_num)⟩

/-- Folding `record_trade_result` over a list of losing trades adds the list
length to the consecutive-loss streak. -/
theorem foldl_record_losses (ls : List ℚ) :
    ∀ (s : RiskState), (∀ x ∈ ls, x < 0) →
      (ls.foldl (fun st x => recordTradeResult x false st) s).consecutiveLosses =
        s.consecutiveLosses + ls.length := by
  induction ls with
  | nil => intro s _; rfl
  | cons y ys ih =>
    intro s hmem
    have hy : y < 0 := hmem y (List.mem_cons_self y ys)
    have hys : ∀ x ∈ ys, x < 0 := fun x hx => hmem x (List.mem_cons_of_mem y hx)
    rw [List.foldl_cons, ih (recordTradeResult y false s) hys]
    simp only [recordTradeResult, if_pos hy, List.length_cons]
    omega

/-- C7: `record_trade_result` increments `daily_trade_count` on every call;
a losing call adds `|profit_loss|` to `daily_loss` and increments
`consecutive_losses`; a non-losing call resets the streak to 0.  Hence after
any sequence of losing calls followed by one winning call the streak is 0,
and one further losing call sets it to 1. -/
theorem c7_record_trade_result (s : RiskState) (pl : ℚ) (flag : Bool)
    (ls : List ℚ) (win lose : ℚ)
    (hls : ∀ x ∈ ls, x < 0) (hwin : 0 ≤ win) (hlose : lose < 0) :
    ((recordTradeResult pl flag s).dailyTrades = s.dailyTrades + 1) ∧
    (pl < 0 →
      (recordTradeResult pl flag s).dailyLoss = s.dailyLoss + |pl| ∧
      (recordTradeResult pl flag s).consecutiveLosses =
        s.consecutiveLosses + 1) ∧
    (0 ≤ pl → (recordTradeResult pl flag s).consecutiveLosses = 0) ∧
    ((ls.foldl (fun st x => recordTradeResult x false st) s).consecutiveLosses =
      s.consecutiveLosses + ls.length) ∧
    ((recordTradeResult win true
        (ls.foldl (fun st x => recordTradeResult x false st) s)).consecutiveLosses
      = 0) ∧
    ((recordTradeResult lose false (recordTradeResult win true
        (ls.foldl (fun st x => recordTradeResult x false st) s))).consecutiveLosses
      = 1) := by
  refine ⟨rfl, ?_, ?_, foldl_record_losses ls s hls, ?_, ?_⟩
  · intro hp
    refine ⟨?_, ?_⟩ <;> simp [recordTradeResult, if_pos hp]
  · intro hp
    simp only [recordTradeResult, if_neg (not_lt.mpr hp)]
  · simp only [recordTradeResult, if_neg (not_lt.mpr hwin)]
  · simp only [recordTradeResult, if_neg (not_lt.mpr hwin), if_pos hlose]

/-- C7 witness: two losing trades of 1000 and 2000, a winning trade of 500
clearing the streak, and a further losing trade restarting it at 1. -/
theorem c7_record_trade_result_witness :
    (recordTradeResult (-3000) false (recordTradeResult 500 true
      ([(-1000 : ℚ), -2000].foldl (fun st x => recordTradeResult x false st)
        ⟨0, 0, 0, none⟩))).consecutiveLosses = 1 ∧
    (recordTradeResult 500 true
      ([(-1000 : ℚ), -2000].foldl (fun st x => recordTradeResult x false st)
        ⟨0, 0, 0, none⟩)).consecutiveLosses = 0 :=
  ⟨(c7_record_trade_result ⟨0, 0, 0, none⟩ 0 false [(-1000 : ℚ), -2000]
      500 (-3000)
      (by intro x hx; simp at hx; rcases hx with h | h <;> rw [h] <;> norm_num)
      (by norm_num) (by norm_num)).2.2.2.2.2,
   (c7_record_trade_result ⟨0, 0, 0, none⟩ 0 false [(-1000 : ℚ), -2000]
      500 (-3000)
      (by intro x hx; simp at hx; rcases hx with h | h <;> rw [h] <;> norm_num)
      (by norm_num) (by norm_num)).2.2.2.2.1⟩

/-- C8: every dry-run IFDOCO order returns, with no network request, exactly
3 order records sharing the single root id `"DRY_" ++ raw0`; each record's
own identifier carries the `DRY_` prefix (distinct from real numeric ids)
and the explicit dry-run marker; the entry record keeps the requested side
and opens, while the take-profit (LIMIT) and stop-loss (STOP) records both
close with the side inverse to the entry side. -/
theorem c8_dry_run_ifdoco (raw0 raw1 raw2 raw3 symbol fet fp slp ssp : String)
    (side : Side) (fs ss : ℕ) :
    ∃ entry tp sl,
      placeIfdocoOrder true raw0 raw1 raw2 raw3 symbol side fet fs fp ss
        slp ssp = .simulated [entry, tp, sl] ∧
      entry.rootOrderId = "DRY_" ++ raw0 ∧
      tp.rootOrderId = "DRY_" ++ raw0 ∧
      sl.rootOrderId = "DRY_" ++ raw0 ∧
      entry.orderId = "DRY_" ++ raw1 ∧
      tp.orderId = "DRY_" ++ raw2 ∧
      sl.orderId = "DRY_" ++ raw3 ∧
      entry.dryRunFlag = true ∧ tp.dryRunFlag = true ∧ sl.dryRunFlag = true ∧
      entry.side = side ∧ tp.side = inverseSide side ∧
      sl.side = inverseSide side ∧
      entry.settleType = "OPEN" ∧ tp.executionType = "LIMIT" ∧
      tp.settleType = "CLOSE" ∧ sl.executionType = "STOP" ∧
      sl.settleType = "CLOSE" :=
  ⟨_, _, _, rfl, rfl, rfl, rfl, rfl, rfl, rfl, rfl, rfl, rfl, rfl, rfl, rfl,
    rfl, rfl, rfl, rfl, rfl⟩

/-- C9: in `execute_signals`, one symbol's failure is converted at that
symbol's boundary into a failed SKIP result and does not disturb any other
symbol: the returned list has exactly one entry per configured symbol, the
entry at each position is determined by that symbol's own outcome (the
synthesized `errorResult` on an exception, the returned result otherwise),
and the synthesized result has `success = false` and `action = SKIP`.
Inside `_execute_buy`, a caught order-placement exception likewise becomes a
returned result with `success = false` and the attempted action BUY. -/
theorem c9_per_symbol_isolation (symbols : List String) (dryRun : Bool)
    (execOne : String → Except String TradeResult) :
    ((executeSignals symbols dryRun execOne).length = symbols.length) ∧
    (∀ i : ℕ, ∀ hi : i < symbols.length, ∀ e : TradeResult,
      execOne (symbols.get ⟨i, hi⟩) = .ok e →
      (executeSignals symbols dryRun execOne).get? i = some e) ∧
    (∀ i : ℕ, ∀ hi : i < symbols.length, ∀ msg : String,
      execOne (symbols.get ⟨i, hi⟩) = .error msg →
      (executeSignals symbols dryRun execOne).get? i =
        some (errorResult (symbols.get ⟨i, hi⟩) dryRun msg)) ∧
    (∀ sym msg dr, (errorResult sym dr msg).success = false ∧
      (errorResult sym dr msg).action = .SKIP) ∧
    (∀ sym sz dr reasonOk exc sigReason,
      executeBuy sym sz dr (true, reasonOk) (.error exc) sigReason =
        { success := false, action := .BUY, symbol := sym, size := sz,
          orderId := none, reason := "Order failed", dryRun := dr }) := by
  refine ⟨List.length_map _ _, ?_, ?_, fun sym msg dr => ⟨rfl, rfl⟩,
    fun sym sz dr reasonOk exc sigReason => rfl⟩
  · intro i hi e he
    unfold executeSignals
    rw [List.get?_eq_getElem?, List.getElem?_map, List.getElem?_eq_getElem hi,
      Option.map_some']
    simp only [List.get_eq_getElem] at he
    rw [he]
  · intro i hi msg he
    unfold executeSignals
    rw [List.get?_eq_getElem?, List.getElem?_map, List.getElem?_eq_getElem hi,
      Option.map_some']
    simp only [List.get_eq_getElem] at he
    rw [he]
    rfl

/-- C9 witness: two symbols where the second raises — the cycle still
produces one result per symbol, the first symbol's result is its own, and
the second is the synthesized failed SKIP result. -/
theorem c9_per_symbol_isolation_witness :
    (executeSignals ["USD_JPY", "EUR_JPY"] false
      (fun sym => if sym = "EUR_JPY" then .error "boom"
        else .ok ⟨true, .HOLD, sym, 0, none, "ok", false⟩)).length = 2 ∧
    (executeSignals ["USD_JPY", "EUR_JPY"] false
      (fun sym => if sym = "EUR_JPY" then .error "boom"
        else .ok ⟨true, .HOLD, sym, 0, none, "ok", false⟩)).get? 1
      = some (errorResult "EUR_JPY" false "boom") :=
  ⟨(c9_per_symbol_isolation ["USD_JPY", "EUR_JPY"] false _).1,
   (c9_per_symbol_isolation ["USD_JPY", "EUR_JPY"] false _).2.2.1 1
     (by norm_num) "boom" rfl⟩

/-- C10: fail-open margin check.  When the `balance` or `margin` field of
the supplied account assets cannot be converted to a number (the conversion
raises), `_check_margin_ratio` swallows the exception and returns the
fail-open `can_trade=True` skip result (MEDIUM), and — all counter-based
limits being unreached on a state already stamped with today's date —
`check_trade_allowed` therefore allows the trade: malformed account data
never blocks it. -/
theorem c10_margin_fail_open (today : ℕ) (cfg : RiskConfig) (s : RiskState)
    (a : AccountAssets)
    (hsame : s.lastResetDate = some today)
    (h1 : s.consecutiveLosses < cfg.maxConsecutiveLosses)
    (h2 : s.dailyLoss < cfg.maxDailyLoss)
    (h3 : s.dailyTrades < cfg.maxDailyTrades)
    (hbad : toFloatOrRaise a.balance = none ∨ toFloatOrRaise a.margin = none) :
    checkMarginRatio cfg a =
      { canTrade := true, reason := .marginSkipped, riskLevel := .MEDIUM } ∧
    (checkTradeAllowed today cfg s (some a)).1.canTrade = true ∧
    (checkTradeAllowed today cfg s (some a)).1.reason = .tradeAllowed := by
  have hid : ¬ (s.lastResetDate ≠ some today) := by simp [hsame]
  have hmr : checkMarginRatio cfg a =
      { canTrade := true, reason := .marginSkipped, riskLevel := .MEDIUM } := by
    rcases checkMarginRatio_spec cfg a with ⟨b, m, hb, hmm, _⟩ | ⟨_, heq⟩
    · rcases hbad with hn | hn
      · rw [hn] at hb; cases hb
      · rw [hn] at hmm; cases hmm
    · exact heq
  refine ⟨hmr, ?_, ?_⟩ <;>
    · simp only [checkTradeAllowed, resetDailyStatsIfNeeded, if_neg hid]
      rw [if_neg (not_le.mpr h1), if_neg (not_le.mpr h2),
        if_neg (not_le.mpr h3)]
      simp [hmr]

/-- C10 witness: a non-numeric `balance` string with all counters at zero
and positive limits — the check allows the trade. -/
theorem c10_margin_fail_open_witness :
    (checkTradeAllowed 0 ⟨50000, 10, 3, 100⟩ ⟨0, 0, 0, some 0⟩
      (some ⟨some .badStr, some (.num 100000)⟩)).1.canTrade = true ∧
    checkMarginRatio ⟨50000, 10, 3, 100⟩ ⟨some .badStr, some (.num 100000)⟩ =
      { canTrade := true, reason := .marginSkipped, riskLevel := .MEDIUM } :=
  ⟨(c10_margin_fail_open 0 ⟨50000, 10, 3, 100⟩ ⟨0, 0, 0, some 0⟩
      ⟨some .badStr, some (.num 100000)⟩ rfl (by norm_num) (by norm_num)
      (by norm_num) (Or.inl rfl)).2.1,
   (c10_margin_fail_open 0 ⟨50000, 10, 3, 100⟩ ⟨0, 0, 0, some 0⟩
      ⟨some .badStr, some (.num 100000)⟩ rfl (by norm_num) (by norm_num)
      (by norm_num) (Or.inl rfl)).1⟩

end FxBot
